import Mathlib

/-!
Verification of the optimistic mutation-cache layer of the product-catalog
admin UI (src/src/services/productService.ts, src/src/services/categoryService.ts,
src/src/components/customize/form/AddEditProductForm.tsx, src/src/lib/schema.ts).

The embedding follows the source hook by hook:

* `Response α` mirrors the transport envelope `Response<T>` of lib/types;
  the cached list value keeps `data` optional because every cache updater in
  the source guards `if (!oldData || !oldData.data) return oldData`.
* the four `setQueriesData` updater closures are transcribed as
  `addProductUpdater`, `editProductUpdater`, `deleteProductUpdater`
  and `addCategoryUpdater`;
* the query-client level steps (`cancelQueries`, `setQueriesData`,
  `invalidateQueries` with the `!query.state.data` predicate) act on a cache
  that is a list of query entries, each carrying its key, optional data and
  bookkeeping flags;
* the temporal shape of each mutation (network call, then the success or
  error callback) is an event trace per outcome;
* the price-input handler and the zod schema of the add/edit form are
  transcribed as `handlePriceChange` and `addProductSchemaAccepts`.
-/

set_option autoImplicit false

/-- Product record as selected into the UI and cached under the
products query keys (lib/types `Product`, fields used by the services). -/
structure Product where
  id : Int
  name : String
  price : Int
  deriving DecidableEq, Repr

/-- Category record (lib/types `Category`). -/
structure Category where
  id : Int
  name : String
  deriving DecidableEq, Repr

/-- Transport envelope `Response<T>` returned by the REST helpers:
a message, a status string and the payload. -/
structure Response (α : Type) where
  message : String
  status : String
  data : α
  deriving DecidableEq, Repr

/-- Cached value for a products list query: the envelope whose `data` field
may be absent at runtime, as witnessed by the `!oldData.data` guard in every
updater of productService.ts. -/
abbrev ProductsValue := Response (Option (List Product))

/-- Cached value for the categories list query. -/
abbrev CategoriesValue := Response (Option (List Category))

/-- Cache updater of `useMutateAddProduct.onSuccess`
(productService.ts lines 196-208): keep absent entries unchanged, otherwise
prepend the server record `newProduct.data` to the cached list. -/
def addProductUpdater (newProduct : Response Product) :
    Option ProductsValue → Option ProductsValue
  | none => none
  | some oldData =>
    match oldData.data with
    | none => some oldData
    | some l => some { oldData with data := some (newProduct.data :: l) }

/-- Cache updater of `useMutateEditProduct.onSuccess`
(productService.ts lines 309-322): map over the cached list and replace the
record whose id equals `newProduct.data.id` by the server record itself. -/
def editProductUpdater (newProduct : Response Product) :
    Option ProductsValue → Option ProductsValue
  | none => none
  | some oldData =>
    match oldData.data with
    | none => some oldData
    | some l =>
      some { oldData with
              data := some (l.map fun product =>
                if product.id == newProduct.data.id then newProduct.data
                else product) }

/-- Cache updater of `useMutateDeleteProduct.onSuccess`
(productService.ts lines 419-435): collect the ids of the records in the
server response and filter out every cached record whose id is among them. -/
def deleteProductUpdater (deletedProduct : Response (List Product)) :
    Option ProductsValue → Option ProductsValue
  | none => none
  | some oldData =>
    match oldData.data with
    | none => some oldData
    | some l =>
      let deletedIds := deletedProduct.data.map (fun product => product.id)
      some { oldData with
              data := some (l.filter fun product =>
                !(deletedIds.contains product.id)) }

/-- Cache updater of `useAddCategory.onSuccess`
(categoryService.ts lines 67-79): append the records of the server response
at the end of the cached list (spread after the old data). -/
def addCategoryUpdater (newCategory : Response (List Category)) :
    Option CategoriesValue → Option CategoriesValue
  | none => none
  | some oldData =>
    match oldData.data with
    | none => some oldData
    | some l => some { oldData with data := some (l ++ newCategory.data) }

/-- Query key: the resource name (first component of the react-query key
array, for example "products" or "categories") together with the remaining
filter parameters (category ids and search name in `useGetProductsQuery`). -/
structure QueryKey where
  resource : String
  params : List Int
  deriving DecidableEq, Repr

/-- One cache entry of the query client, for queries whose value type is `α`:
the key, the optional cached value (`query.state.data`, absent until a fetch
or a cache write produced one), whether the query has active subscribers,
its staleness mark and whether a fetch for it is in flight. -/
structure QueryEntry (α : Type) where
  key : QueryKey
  data : Option α
  active : Bool
  stale : Bool
  fetching : Bool
  deriving DecidableEq, Repr

/-- Cache of the query client restricted to one value type: the list of its
query entries. -/
abbrev Cache (α : Type) := List (QueryEntry α)

/-- Query-filter match of `{ queryKey: [resource] }`: a one-element key
filter matches every query whose key starts with that resource name. -/
def matchesResource (resource : String) (key : QueryKey) : Bool :=
  key.resource == resource

/-- Effect of `queryClient.cancelQueries(queryFilter)` on one entry: an
in-flight fetch of a matching query is aborted, and the abort has completed
once the awaited call returns (the hooks `await` it). -/
def cancelEntry {α : Type} (resource : String) (e : QueryEntry α) :
    QueryEntry α :=
  if matchesResource resource e.key then { e with fetching := false } else e

/-- Effect of `queryClient.setQueriesData(queryFilter, updater)` on one
entry: the updater is applied to the current data of every matching query. -/
def writeEntry {α : Type} (resource : String) (updater : Option α → Option α)
    (e : QueryEntry α) : QueryEntry α :=
  if matchesResource resource e.key then { e with data := updater e.data }
  else e

/-- Predicate passed by every mutation hook to `invalidateQueries`:
`!query.state.data`, true exactly when the entry holds no data. -/
def invalidatePredicate {α : Type} (e : QueryEntry α) : Bool :=
  e.data.isNone

/-- Effect of `queryClient.invalidateQueries({ queryKey, predicate })` on
one entry: a matching query satisfying the predicate is marked stale, and an
active invalidated query is refetched eagerly (query-client invalidation
semantics the hooks rely on; inactive queries are only marked). -/
def invalidateEntry {α : Type} (resource : String) (e : QueryEntry α) :
    QueryEntry α :=
  if matchesResource resource e.key && invalidatePredicate e then
    { e with stale := true, fetching := e.active }
  else e

/-- Whole-cache version of `cancelQueries` over the entries. -/
def cancelQueriesStep {α : Type} (resource : String) (cache : Cache α) :
    Cache α :=
  cache.map (cancelEntry resource)

/-- Whole-cache version of `setQueriesData` over the entries. -/
def setQueriesDataStep {α : Type} (resource : String)
    (updater : Option α → Option α) (cache : Cache α) : Cache α :=
  cache.map (writeEntry resource updater)

/-- Whole-cache version of `invalidateQueries` over the entries. -/
def invalidateQueriesStep {α : Type} (resource : String) (cache : Cache α) :
    Cache α :=
  cache.map (invalidateEntry resource)

/-- Outcome of the network call issued by a mutation: the server record on
success, or the optional server-reported message
(`error.response?.data.message`) on failure. -/
inductive Outcome (α : Type) where
  | success (record : α)
  | failure (serverMessage : Option String)
  deriving DecidableEq, Repr

/-- Settlement of `useMutateAddProduct` on the cache: on success the
`onSuccess` callback cancels the products queries, writes the prepend
updater through them and invalidates the data-less ones; the `onError`
callback only shows a toast and touches no cache state. -/
def addProductSettle (outcome : Outcome (Response Product))
    (cache : Cache ProductsValue) : Cache ProductsValue :=
  match outcome with
  | .success newProduct =>
    invalidateQueriesStep "products"
      (setQueriesDataStep "products" (addProductUpdater newProduct)
        (cancelQueriesStep "products" cache))
  | .failure _ => cache

/-- Settlement of `useMutateEditProduct` on the cache: same step sequence as
the add hook, with the replace updater; `onError` logs and toasts only. -/
def editProductSettle (outcome : Outcome (Response Product))
    (cache : Cache ProductsValue) : Cache ProductsValue :=
  match outcome with
  | .success newProduct =>
    invalidateQueriesStep "products"
      (setQueriesDataStep "products" (editProductUpdater newProduct)
        (cancelQueriesStep "products" cache))
  | .failure _ => cache

/-- Settlement of `useMutateDeleteProduct` on the cache: same step sequence
with the filter updater; `onError` toasts only. -/
def deleteProductSettle (outcome : Outcome (Response (List Product)))
    (cache : Cache ProductsValue) : Cache ProductsValue :=
  match outcome with
  | .success deletedProduct =>
    invalidateQueriesStep "products"
      (setQueriesDataStep "products" (deleteProductUpdater deletedProduct)
        (cancelQueriesStep "products" cache))
  | .failure _ => cache

/-- Settlement of `useAddCategory` on the cache of categories queries: on
success cancel, write the append updater, invalidate the data-less entries;
`onError` only logs to the console. -/
def addCategorySettle (outcome : Outcome (Response (List Category)))
    (cache : Cache CategoriesValue) : Cache CategoriesValue :=
  match outcome with
  | .success newCategory =>
    invalidateQueriesStep "categories"
      (setQueriesDataStep "categories" (addCategoryUpdater newCategory)
        (cancelQueriesStep "categories" cache))
  | .failure _ => cache

/-- Observable step of a mutation execution, in the order the hook performs
them: the awaited network call of `mutationFn`, then the statements of
`onSuccess` or of `onError`. -/
inductive Event where
  | networkCall
  | cancelQueries (resource : String)
  | cacheWrite (resource : String)
  | toastSuccess (title : String) (description : String)
  | toastError (title : String) (description : Option String)
  | consoleLog
  | invalidateQueries (resource : String)
  deriving DecidableEq, Repr

/-- Tests whether an event is the network call. -/
def Event.isNetworkCall : Event → Bool
  | .networkCall => true
  | _ => false

/-- Tests whether an event is a cache write (`setQueriesData`). -/
def Event.isCacheWrite : Event → Bool
  | .cacheWrite _ => true
  | _ => false

/-- Tests whether an event is a fetch cancellation (`cancelQueries`). -/
def Event.isCancel : Event → Bool
  | .cancelQueries _ => true
  | _ => false

/-- Tests whether an event is a notification to the toast collaborator. -/
def Event.isToast : Event → Bool
  | .toastSuccess _ _ => true
  | .toastError _ _ => true
  | _ => false

/-- Event trace of one `useMutateAddProduct` execution
(productService.ts lines 186-227): `useMutation` runs `mutationFn` first;
on success the callback awaits `cancelQueries`, runs `setQueriesData`,
shows the success toast and calls `invalidateQueries`; on error it shows
the failure toast with the optional server message as description. -/
def addProductEvents (outcome : Outcome (Response Product)) : List Event :=
  Event.networkCall ::
    match outcome with
    | .success _ =>
      [Event.cancelQueries "products", Event.cacheWrite "products",
       Event.toastSuccess "Success" "Product added successfully",
       Event.invalidateQueries "products"]
    | .failure serverMessage => [Event.toastError "Failed" serverMessage]

/-- Event trace of one `useMutateEditProduct` execution
(productService.ts lines 297-348): same success sequence with the edit
updater and toast; on error a console log then the failure toast. -/
def editProductEvents (outcome : Outcome (Response Product)) : List Event :=
  Event.networkCall ::
    match outcome with
    | .success _ =>
      [Event.cancelQueries "products", Event.cacheWrite "products",
       Event.toastSuccess "Success" "Product updated successfully",
       Event.invalidateQueries "products"]
    | .failure serverMessage =>
      [Event.consoleLog, Event.toastError "Failed" serverMessage]

/-- Event trace of one `useMutateDeleteProduct` execution
(productService.ts lines 407-457). -/
def deleteProductEvents (outcome : Outcome (Response (List Product))) :
    List Event :=
  Event.networkCall ::
    match outcome with
    | .success _ =>
      [Event.cancelQueries "products", Event.cacheWrite "products",
       Event.toastSuccess "Success" "Product deleted successfully",
       Event.invalidateQueries "products"]
    | .failure serverMessage => [Event.toastError "Failed" serverMessage]

/-- Event trace of one `useAddCategory` execution
(categoryService.ts lines 56-93): the success callback cancels, writes and
invalidates but shows no toast; the error callback only logs. -/
def addCategoryEvents (outcome : Outcome (Response (List Category))) :
    List Event :=
  Event.networkCall ::
    match outcome with
    | .success _ =>
      [Event.cancelQueries "categories", Event.cacheWrite "categories",
       Event.invalidateQueries "categories"]
    | .failure _ => [Event.consoleLog]

/-- Number of notifications a trace sends to the toast collaborator. -/
def toastCount (trace : List Event) : Nat :=
  (trace.filter Event.isToast).length

/-- Result of the regex replacement `value.replace(/[^0-9]/g, "")` in the
price field handler of AddEditProductForm.tsx: every character outside
the digits 0-9 is removed. -/
def stripNonDigits (s : String) : String :=
  String.mk (s.toList.filter Char.isDigit)

/-- Value of `parseInt(value, 10)` on a string of decimal digits: the number
the digits denote, accumulated left to right. -/
def digitsToNat (s : String) : Nat :=
  s.toList.foldl (fun acc c => 10 * acc + (c.toNat - 48)) 0

/-- Price-field change handler of AddEditProductForm.tsx lines 150-154:
strip the non-digit characters, store 0 for the empty string and the
base-ten value of the remaining digits otherwise. The stored JS number is
modelled as an integer because the parsed string holds only digits. -/
def handlePriceChange (input : String) : Int :=
  let value := stripNonDigits input
  if value = "" then 0 else (digitsToNat value : Int)

/-- Values held by the add/edit product form (lib/schema `AddProductSchema`). -/
structure AddProductFormValues where
  name : String
  price : Int
  categories : List Category
  deriving DecidableEq, Repr

/-- Acceptance predicate of `AddProductZodSchema.safeParse` (lib/schema.ts):
the name must be non-empty, the price at least 1
("Price must be greater than zero") and at least one category selected. -/
def addProductSchemaAccepts (v : AddProductFormValues) : Bool :=
  (1 ≤ v.name.length) && (1 ≤ v.price) && (1 ≤ v.categories.length)

/-- C1 counterexample: in a product-create execution the cache patch is not
applied before the network call — the trace places the network call at
index 0 and the cache write only at index 2, inside the success callback. -/
theorem addProduct_write_not_before_network :
    ¬ ((addProductEvents (Outcome.success ⟨"m", "success", ⟨1, "a", 2⟩⟩)).findIdx
          Event.isCacheWrite
        < (addProductEvents (Outcome.success ⟨"m", "success", ⟨1, "a", 2⟩⟩)).findIdx
          Event.isNetworkCall) := by
  decide

/-- C1 amended: for every mutation (product create, edit, delete and
category create) the cache patch is applied only after the network call has
succeeded — in every success trace the network call strictly precedes the
cache write, and a failed network call produces no cache write at all, so
the user-visible effect waits for the server's response. -/
theorem mutation_write_only_after_network_success :
    ∀ (rp : Response Product) (rl : Response (List Product))
      (rc : Response (List Category)) (e : Option String),
      ((addProductEvents (Outcome.success rp)).findIdx Event.isNetworkCall
          < (addProductEvents (Outcome.success rp)).findIdx Event.isCacheWrite)
      ∧ ((editProductEvents (Outcome.success rp)).findIdx Event.isNetworkCall
          < (editProductEvents (Outcome.success rp)).findIdx Event.isCacheWrite)
      ∧ ((deleteProductEvents (Outcome.success rl)).findIdx Event.isNetworkCall
          < (deleteProductEvents (Outcome.success rl)).findIdx Event.isCacheWrite)
      ∧ ((addCategoryEvents (Outcome.success rc)).findIdx Event.isNetworkCall
          < (addCategoryEvents (Outcome.success rc)).findIdx Event.isCacheWrite)
      ∧ (addProductEvents (Outcome.failure e)).filter Event.isCacheWrite = []
      ∧ (editProductEvents (Outcome.failure e)).filter Event.isCacheWrite = []
      ∧ (deleteProductEvents (Outcome.failure e)).filter Event.isCacheWrite = []
      ∧ (addCategoryEvents (Outcome.failure e)).filter Event.isCacheWrite = [] := by
  intro rp rl rc e
  refine ⟨?_, ?_, ?_, ?_, rfl, rfl, rfl, rfl⟩ <;>
    exact (by decide : (0 : Nat) < 2)

/-- C2: when the network call of any mutation fails, the settlement leaves
every entry of the cache exactly as it was — the error callbacks perform no
cache write, so the cache state after settlement equals the state before the
mutation began. -/
theorem mutation_failure_cache_unchanged :
    ∀ (e : Option String) (pc : Cache ProductsValue) (cc : Cache CategoriesValue),
      addProductSettle (Outcome.failure e) pc = pc
      ∧ editProductSettle (Outcome.failure e) pc = pc
      ∧ deleteProductSettle (Outcome.failure e) pc = pc
      ∧ addCategorySettle (Outcome.failure e) cc = cc :=
  fun _ _ _ => ⟨rfl, rfl, rfl, rfl⟩

/-- C3 counterexample: the category-create updater does not prepend — on a
cache holding the category `Old`, adding `New` yields `[Old, New]`, not
`[New, Old]` as the claim requires for every Create instance. -/
theorem addCategory_appends_not_prepends :
    addCategoryUpdater ⟨"m", "success", [⟨2, "New"⟩]⟩
        (some ⟨"m", "success", some [⟨1, "Old"⟩]⟩)
      ≠ some ⟨"m", "success", some [⟨2, "New"⟩, ⟨1, "Old"⟩]⟩ := by
  decide

/-- C3 amended: the product-create updater prepends the server record to
every entry with data — the new record sits at index 0 and the previously
cached records follow in their original order — while the category-create
updater appends the server-returned records after the previously cached
ones, which keep their original positions. -/
theorem create_updaters_placement :
    ∀ (r : Response Product) (msg st : String) (l : List Product)
      (nc : Response (List Category)) (msg2 st2 : String) (lc : List Category),
      addProductUpdater r (some ⟨msg, st, some l⟩)
          = some ⟨msg, st, some (r.data :: l)⟩
      ∧ (r.data :: l).head? = some r.data
      ∧ (r.data :: l).drop 1 = l
      ∧ addCategoryUpdater nc (some ⟨msg2, st2, some lc⟩)
          = some ⟨msg2, st2, some (lc ++ nc.data)⟩
      ∧ (lc ++ nc.data).take lc.length = lc :=
  fun _ _ _ l _ _ _ lc => ⟨rfl, rfl, rfl, rfl, List.take_left lc _⟩

/-- C5: the product-edit updater replaces, in every entry with data, the
record whose id equals the server record's id by the server record itself
as a whole value, leaves records with other ids unchanged, and preserves the
length and the order of the list (position by position). -/
theorem editProduct_replaces_whole_record :
    ∀ (r : Response Product) (msg st : String) (l : List Product),
      editProductUpdater r (some ⟨msg, st, some l⟩)
          = some ⟨msg, st,
              some (l.map fun p => if p.id == r.data.id then r.data else p)⟩
      ∧ (l.map fun p => if p.id == r.data.id then r.data else p).length = l.length
      ∧ ∀ i : Nat,
          (l.map fun p => if p.id == r.data.id then r.data else p)[i]?
            = (l[i]?).map fun p => if p.id == r.data.id then r.data else p :=
  fun r msg st l =>
    ⟨rfl, List.length_map l _, fun i => List.getElem?_map _ l i⟩

/-- C7 counterexample: the category-create instance emits no notification at
its terminal states — on a failed (and also on a successful) category-create
the number of toast events is 0, not the 1 the claim requires. -/
theorem addCategory_emits_no_toast :
    toastCount (addCategoryEvents (Outcome.failure (some "Category already exist"))) = 0
    ∧ ¬ toastCount (addCategoryEvents
          (Outcome.failure (some "Category already exist"))) = 1
    ∧ toastCount (addCategoryEvents (Outcome.success ⟨"m", "success", [⟨1, "New"⟩]⟩)) = 0 := by
  decide

/-- C7 amended: each product mutation (create, edit, delete) emits exactly
one toast per terminal state — one success toast on commit, and on rollback
exactly one failure toast titled "Failed" whose description is the
server-reported message when present and absent otherwise (no generic
message is substituted) — while the category-create instance emits no toast
at all at either terminal state, logging to the console instead. -/
theorem product_toasts_once_category_never :
    ∀ (rp : Response Product) (rl : Response (List Product))
      (rc : Response (List Category)) (e : Option String),
      toastCount (addProductEvents (Outcome.success rp)) = 1
      ∧ toastCount (editProductEvents (Outcome.success rp)) = 1
      ∧ toastCount (deleteProductEvents (Outcome.success rl)) = 1
      ∧ toastCount (addProductEvents (Outcome.failure e)) = 1
      ∧ toastCount (editProductEvents (Outcome.failure e)) = 1
      ∧ toastCount (deleteProductEvents (Outcome.failure e)) = 1
      ∧ (addProductEvents (Outcome.failure e)).filter Event.isToast
          = [Event.toastError "Failed" e]
      ∧ (editProductEvents (Outcome.failure e)).filter Event.isToast
          = [Event.toastError "Failed" e]
      ∧ (deleteProductEvents (Outcome.failure e)).filter Event.isToast
          = [Event.toastError "Failed" e]
      ∧ toastCount (addCategoryEvents (Outcome.success rc)) = 0
      ∧ toastCount (addCategoryEvents (Outcome.failure e)) = 0 :=
  fun _ _ _ _ =>
    ⟨rfl, rfl, rfl, rfl, rfl, rfl, rfl, rfl, rfl, rfl, rfl⟩

/-- C8: in the settlement sequence of every mutation, the awaited
cancellation of in-flight fetches for the affected keys strictly precedes
the cache write in the trace — the cancel call has completed before the
patch is applied (and traces without a write contain no patch to race). -/
theorem cancel_completes_before_cache_write :
    ∀ (rp : Response Product) (rl : Response (List Product))
      (rc : Response (List Category)),
      ((addProductEvents (Outcome.success rp)).findIdx Event.isCancel
          < (addProductEvents (Outcome.success rp)).findIdx Event.isCacheWrite)
      ∧ ((editProductEvents (Outcome.success rp)).findIdx Event.isCancel
          < (editProductEvents (Outcome.success rp)).findIdx Event.isCacheWrite)
      ∧ ((deleteProductEvents (Outcome.success rl)).findIdx Event.isCancel
          < (deleteProductEvents (Outcome.success rl)).findIdx Event.isCacheWrite)
      ∧ ((addCategoryEvents (Outcome.success rc)).findIdx Event.isCancel
          < (addCategoryEvents (Outcome.success rc)).findIdx Event.isCacheWrite) := by
  intro rp rl rc
  refine ⟨?_, ?_, ?_, ?_⟩ <;> exact (by decide : (1 : Nat) < 2)

/-- C9: every cache updater maps an absent entry value to itself — an
undefined old value stays undefined and an envelope without a data field is
returned unchanged, so no field of a data-less entry is modified and no data
is fabricated for it. -/
theorem updaters_noop_on_absent_data :
    ∀ (rp : Response Product) (rl : Response (List Product))
      (rc : Response (List Category)) (msg st : String),
      addProductUpdater rp none = none
      ∧ addProductUpdater rp (some ⟨msg, st, none⟩) = some ⟨msg, st, none⟩
      ∧ editProductUpdater rp none = none
      ∧ editProductUpdater rp (some ⟨msg, st, none⟩) = some ⟨msg, st, none⟩
      ∧ deleteProductUpdater rl none = none
      ∧ deleteProductUpdater rl (some ⟨msg, st, none⟩) = some ⟨msg, st, none⟩
      ∧ addCategoryUpdater rc none = none
      ∧ addCategoryUpdater rc (some ⟨msg, st, none⟩) = some ⟨msg, st, none⟩ :=
  fun _ _ _ _ _ => ⟨rfl, rfl, rfl, rfl, rfl, rfl, rfl, rfl⟩

/-- C4: when the ids carried by the delete response are exactly the deleted
id X, the delete updater turns every products entry with data, whatever its
filter key, into the same entry whose list keeps, in their original order,
exactly the records whose id differs from X: a record belongs to the new
list iff it was cached and its id is not X, and the new list is a sublist of
the old one. -/
theorem deleteProduct_removes_exactly_matching :
    ∀ (X : Int) (resp : Response (List Product))
      (hids : resp.data.map (fun p => p.id) = [X])
      (msg st : String) (l : List Product),
      deleteProductUpdater resp (some ⟨msg, st, some l⟩)
          = some ⟨msg, st, some (l.filter fun p => !(p.id == X))⟩
      ∧ (∀ p : Product,
          p ∈ l.filter (fun q => !(q.id == X)) ↔ p ∈ l ∧ p.id ≠ X)
      ∧ List.Sublist (l.filter fun p => !(p.id == X)) l
      ∧ ∀ e : QueryEntry ProductsValue,
          matchesResource "products" e.key = true →
          e.data = some ⟨msg, st, some l⟩ →
          (writeEntry "products" (deleteProductUpdater resp) e).data
            = some ⟨msg, st, some (l.filter fun p => !(p.id == X))⟩ := by
  intro X resp hids msg st l
  have hcontains : ∀ p : Product,
      (!(([X] : List Int).contains p.id)) = (!(p.id == X)) := by
    intro p
    cases h : p.id == X <;> simp [List.contains, List.elem, h]
  have hupd : deleteProductUpdater resp (some ⟨msg, st, some l⟩)
      = some ⟨msg, st, some (l.filter fun p => !(p.id == X))⟩ := by
    simp only [deleteProductUpdater, hids]
    rw [List.filter_congr (fun p _ => hcontains p)]
  refine ⟨hupd, ?_, List.filter_sublist l, ?_⟩
  · intro p
    simp [List.mem_filter]
  · intro e hm hd
    simp [writeEntry, hm, hd, hupd]

/-- C4 witness: with the server reporting the deleted record of id 7, two
cached products entries under different filter keys both lose exactly the
record of id 7 and keep the others in order. -/
theorem deleteProduct_removes_exactly_matching_witness :
    (writeEntry "products"
        (deleteProductUpdater ⟨"m", "success", [⟨7, "g", 5⟩]⟩)
        ⟨⟨"products", []⟩,
          some ⟨"m", "success", some [⟨1, "a", 2⟩, ⟨7, "g", 5⟩, ⟨3, "c", 4⟩]⟩,
          true, false, false⟩).data
      = some ⟨"m", "success",
          some (([⟨1, "a", 2⟩, ⟨7, "g", 5⟩, ⟨3, "c", 4⟩] : List Product).filter
            fun p => !(p.id == 7))⟩
    ∧ (writeEntry "products"
        (deleteProductUpdater ⟨"m", "success", [⟨7, "g", 5⟩]⟩)
        ⟨⟨"products", [2]⟩,
          some ⟨"m", "success", some [⟨7, "g", 5⟩, ⟨3, "c", 4⟩]⟩,
          true, false, false⟩).data
      = some ⟨"m", "success",
          some (([⟨7, "g", 5⟩, ⟨3, "c", 4⟩] : List Product).filter
            fun p => !(p.id == 7))⟩ :=
  ⟨(deleteProduct_removes_exactly_matching 7 ⟨"m", "success", [⟨7, "g", 5⟩]⟩
      (by decide) "m" "success"
      [⟨1, "a", 2⟩, ⟨7, "g", 5⟩, ⟨3, "c", 4⟩]).2.2.2 _ rfl rfl,
   (deleteProduct_removes_exactly_matching 7 ⟨"m", "success", [⟨7, "g", 5⟩]⟩
      (by decide) "m" "success"
      [⟨7, "g", 5⟩, ⟨3, "c", 4⟩]).2.2.2 _ rfl rfl⟩

/-- Pointwise behaviour of the commit pipeline cancel-then-write-then-
invalidate shared by every mutation hook: for any updater that maps absent
data to absent data and present data to present data, a matching entry that
held data keeps its data and staleness and ends up not fetching, while a
matching subscribed entry without data ends up stale and refetching. -/
theorem invalidate_after_write_pointwise {α : Type} (resource : String)
    (updater : Option α → Option α)
    (hnone : updater none = none)
    (hsome : ∀ v, (updater (some v)).isSome = true)
    (cache : Cache α) (i : Nat) (e : QueryEntry α)
    (he : cache[i]? = some e)
    (hm : matchesResource resource e.key = true) :
    ((e.data.isSome = true →
        ∃ v, (invalidateQueriesStep resource
            (setQueriesDataStep resource updater
              (cancelQueriesStep resource cache)))[i]? = some v
          ∧ v.stale = e.stale ∧ v.fetching = false ∧ v.data.isSome = true)
     ∧ (e.data = none → e.active = true →
        ∃ v, (invalidateQueriesStep resource
            (setQueriesDataStep resource updater
              (cancelQueriesStep resource cache)))[i]? = some v
          ∧ v.stale = true ∧ v.fetching = true)) := by
  have hidx : (invalidateQueriesStep resource
      (setQueriesDataStep resource updater
        (cancelQueriesStep resource cache)))[i]?
      = some (invalidateEntry resource
          (writeEntry resource updater (cancelEntry resource e))) := by
    simp [invalidateQueriesStep, setQueriesDataStep, cancelQueriesStep,
      List.getElem?_map, he]
  constructor
  · intro hsomeE
    obtain ⟨v, hv⟩ := Option.isSome_iff_exists.mp hsomeE
    obtain ⟨w, hw⟩ := Option.isSome_iff_exists.mp (hsome v)
    refine ⟨_, hidx, ?_, ?_, ?_⟩ <;>
      simp [cancelEntry, writeEntry, invalidateEntry, invalidatePredicate,
        hm, hv, hw]
  · intro hnoneE hactive
    refine ⟨_, hidx, ?_, ?_⟩ <;>
      simp [cancelEntry, writeEntry, invalidateEntry, invalidatePredicate,
        hm, hnoneE, hactive, hnone]

/-- C6: after any mutation commits — product create, product edit, product
delete or category create — the invalidation step touches only entries
without data: a matching entry that held data before the settlement still
holds data afterwards, keeps its staleness mark and is not fetching (so it
is neither invalidated nor eagerly refetched), while a matching subscribed
entry with absent data ends up marked stale and refetching. -/
theorem commit_invalidates_only_dataless :
    ∀ (rp : Response Product) (rl : Response (List Product))
      (rc : Response (List Category)),
      (∀ (cache : Cache ProductsValue) (i : Nat) (e : QueryEntry ProductsValue),
        cache[i]? = some e →
        matchesResource "products" e.key = true →
        ((e.data.isSome = true →
            ∃ v, (addProductSettle (Outcome.success rp) cache)[i]? = some v
              ∧ v.stale = e.stale ∧ v.fetching = false ∧ v.data.isSome = true)
         ∧ (e.data = none → e.active = true →
            ∃ v, (addProductSettle (Outcome.success rp) cache)[i]? = some v
              ∧ v.stale = true ∧ v.fetching = true)))
      ∧ (∀ (cache : Cache ProductsValue) (i : Nat) (e : QueryEntry ProductsValue),
        cache[i]? = some e →
        matchesResource "products" e.key = true →
        ((e.data.isSome = true →
            ∃ v, (editProductSettle (Outcome.success rp) cache)[i]? = some v
              ∧ v.stale = e.stale ∧ v.fetching = false ∧ v.data.isSome = true)
         ∧ (e.data = none → e.active = true →
            ∃ v, (editProductSettle (Outcome.success rp) cache)[i]? = some v
              ∧ v.stale = true ∧ v.fetching = true)))
      ∧ (∀ (cache : Cache ProductsValue) (i : Nat) (e : QueryEntry ProductsValue),
        cache[i]? = some e →
        matchesResource "products" e.key = true →
        ((e.data.isSome = true →
            ∃ v, (deleteProductSettle (Outcome.success rl) cache)[i]? = some v
              ∧ v.stale = e.stale ∧ v.fetching = false ∧ v.data.isSome = true)
         ∧ (e.data = none → e.active = true →
            ∃ v, (deleteProductSettle (Outcome.success rl) cache)[i]? = some v
              ∧ v.stale = true ∧ v.fetching = true)))
      ∧ (∀ (cache : Cache CategoriesValue) (i : Nat)
          (e : QueryEntry CategoriesValue),
        cache[i]? = some e →
        matchesResource "categories" e.key = true →
        ((e.data.isSome = true →
            ∃ v, (addCategorySettle (Outcome.success rc) cache)[i]? = some v
              ∧ v.stale = e.stale ∧ v.fetching = false ∧ v.data.isSome = true)
         ∧ (e.data = none → e.active = true →
            ∃ v, (addCategorySettle (Outcome.success rc) cache)[i]? = some v
              ∧ v.stale = true ∧ v.fetching = true))) := by
  intro rp rl rc
  refine ⟨?_, ?_, ?_, ?_⟩ <;> intro cache i e he hm
  · exact invalidate_after_write_pointwise "products" (addProductUpdater rp)
      rfl (fun v => by rcases v with ⟨m, s, _ | l⟩ <;> rfl) cache i e he hm
  · exact invalidate_after_write_pointwise "products" (editProductUpdater rp)
      rfl (fun v => by rcases v with ⟨m, s, _ | l⟩ <;> rfl) cache i e he hm
  · exact invalidate_after_write_pointwise "products" (deleteProductUpdater rl)
      rfl (fun v => by rcases v with ⟨m, s, _ | l⟩ <;> rfl) cache i e he hm
  · exact invalidate_after_write_pointwise "categories" (addCategoryUpdater rc)
      rfl (fun v => by rcases v with ⟨m, s, _ | l⟩ <;> rfl) cache i e he hm

/-- C6 witness: on a concrete products cache (and a concrete categories
cache) holding one entry with data and one subscribed data-less entry,
committing each of the four mutations leaves the data-holding entry fresh
and idle while the data-less one becomes stale and refetching. -/
theorem commit_invalidates_only_dataless_witness :
    ((∃ v, (addProductSettle (Outcome.success ⟨"m", "success", ⟨9, "new", 10⟩⟩)
          [⟨⟨"products", []⟩, some ⟨"m", "success", some [⟨1, "a", 2⟩]⟩,
              true, false, false⟩,
           ⟨⟨"products", [2]⟩, none, true, false, false⟩])[0]? = some v
        ∧ v.stale = false ∧ v.fetching = false ∧ v.data.isSome = true)
     ∧ (∃ v, (addProductSettle (Outcome.success ⟨"m", "success", ⟨9, "new", 10⟩⟩)
          [⟨⟨"products", []⟩, some ⟨"m", "success", some [⟨1, "a", 2⟩]⟩,
              true, false, false⟩,
           ⟨⟨"products", [2]⟩, none, true, false, false⟩])[1]? = some v
        ∧ v.stale = true ∧ v.fetching = true))
    ∧ ((∃ v, (editProductSettle (Outcome.success ⟨"m", "success", ⟨1, "b", 3⟩⟩)
          [⟨⟨"products", []⟩, some ⟨"m", "success", some [⟨1, "a", 2⟩]⟩,
              true, false, false⟩,
           ⟨⟨"products", [2]⟩, none, true, false, false⟩])[0]? = some v
        ∧ v.stale = false ∧ v.fetching = false ∧ v.data.isSome = true)
     ∧ (∃ v, (editProductSettle (Outcome.success ⟨"m", "success", ⟨1, "b", 3⟩⟩)
          [⟨⟨"products", []⟩, some ⟨"m", "success", some [⟨1, "a", 2⟩]⟩,
              true, false, false⟩,
           ⟨⟨"products", [2]⟩, none, true, false, false⟩])[1]? = some v
        ∧ v.stale = true ∧ v.fetching = true))
    ∧ ((∃ v, (deleteProductSettle
          (Outcome.success ⟨"m", "success", [⟨7, "g", 5⟩]⟩)
          [⟨⟨"products", []⟩, some ⟨"m", "success", some [⟨1, "a", 2⟩]⟩,
              true, false, false⟩,
           ⟨⟨"products", [2]⟩, none, true, false, false⟩])[0]? = some v
        ∧ v.stale = false ∧ v.fetching = false ∧ v.data.isSome = true)
     ∧ (∃ v, (deleteProductSettle
          (Outcome.success ⟨"m", "success", [⟨7, "g", 5⟩]⟩)
          [⟨⟨"products", []⟩, some ⟨"m", "success", some [⟨1, "a", 2⟩]⟩,
              true, false, false⟩,
           ⟨⟨"products", [2]⟩, none, true, false, false⟩])[1]? = some v
        ∧ v.stale = true ∧ v.fetching = true))
    ∧ ((∃ v, (addCategorySettle
          (Outcome.success ⟨"m", "success", [⟨2, "New"⟩]⟩)
          [⟨⟨"categories", []⟩, some ⟨"m", "success", some [⟨1, "Home"⟩]⟩,
              true, false, false⟩,
           ⟨⟨"categories", [1]⟩, none, true, false, false⟩])[0]? = some v
        ∧ v.stale = false ∧ v.fetching = false ∧ v.data.isSome = true)
     ∧ (∃ v, (addCategorySettle
          (Outcome.success ⟨"m", "success", [⟨2, "New"⟩]⟩)
          [⟨⟨"categories", []⟩, some ⟨"m", "success", some [⟨1, "Home"⟩]⟩,
              true, false, false⟩,
           ⟨⟨"categories", [1]⟩, none, true, false, false⟩])[1]? = some v
        ∧ v.stale = true ∧ v.fetching = true)) :=
  ⟨⟨((commit_invalidates_only_dataless ⟨"m", "success", ⟨9, "new", 10⟩⟩
        ⟨"m", "success", [⟨7, "g", 5⟩]⟩ ⟨"m", "success", [⟨2, "New"⟩]⟩).1 _ 0
      ⟨⟨"products", []⟩, some ⟨"m", "success", some [⟨1, "a", 2⟩]⟩,
        true, false, false⟩ rfl rfl).1 rfl,
    ((commit_invalidates_only_dataless ⟨"m", "success", ⟨9, "new", 10⟩⟩
        ⟨"m", "success", [⟨7, "g", 5⟩]⟩ ⟨"m", "success", [⟨2, "New"⟩]⟩).1 _ 1
      ⟨⟨"products", [2]⟩, none, true, false, false⟩ rfl rfl).2 rfl rfl⟩,
   ⟨((commit_invalidates_only_dataless ⟨"m", "success", ⟨1, "b", 3⟩⟩
        ⟨"m", "success", [⟨7, "g", 5⟩]⟩ ⟨"m", "success", [⟨2, "New"⟩]⟩).2.1 _ 0
      ⟨⟨"products", []⟩, some ⟨"m", "success", some [⟨1, "a", 2⟩]⟩,
        true, false, false⟩ rfl rfl).1 rfl,
    ((commit_invalidates_only_dataless ⟨"m", "success", ⟨1, "b", 3⟩⟩
        ⟨"m", "success", [⟨7, "g", 5⟩]⟩ ⟨"m", "success", [⟨2, "New"⟩]⟩).2.1 _ 1
      ⟨⟨"products", [2]⟩, none, true, false, false⟩ rfl rfl).2 rfl rfl⟩,
   ⟨((commit_invalidates_only_dataless ⟨"m", "success", ⟨9, "new", 10⟩⟩
        ⟨"m", "success", [⟨7, "g", 5⟩]⟩ ⟨"m", "success", [⟨2, "New"⟩]⟩).2.2.1 _ 0
      ⟨⟨"products", []⟩, some ⟨"m", "success", some [⟨1, "a", 2⟩]⟩,
        true, false, false⟩ rfl rfl).1 rfl,
    ((commit_invalidates_only_dataless ⟨"m", "success", ⟨9, "new", 10⟩⟩
        ⟨"m", "success", [⟨7, "g", 5⟩]⟩ ⟨"m", "success", [⟨2, "New"⟩]⟩).2.2.1 _ 1
      ⟨⟨"products", [2]⟩, none, true, false, false⟩ rfl rfl).2 rfl rfl⟩,
   ⟨((commit_invalidates_only_dataless ⟨"m", "success", ⟨9, "new", 10⟩⟩
        ⟨"m", "success", [⟨7, "g", 5⟩]⟩ ⟨"m", "success", [⟨2, "New"⟩]⟩).2.2.2 _ 0
      ⟨⟨"categories", []⟩, some ⟨"m", "success", some [⟨1, "Home"⟩]⟩,
        true, false, false⟩ rfl rfl).1 rfl,
    ((commit_invalidates_only_dataless ⟨"m", "success", ⟨9, "new", 10⟩⟩
        ⟨"m", "success", [⟨7, "g", 5⟩]⟩ ⟨"m", "success", [⟨2, "New"⟩]⟩).2.2.2 _ 1
      ⟨⟨"categories", [1]⟩, none, true, false, false⟩ rfl rfl).2 rfl rfl⟩⟩

/-- C10: every string typed into the price field is stored as a non-negative
integer; the decimal input "12.50" is stored as the integer 1250, the empty
input as 0, and the validation schema rejects any form whose price integer
is below its minimum of 1. -/
theorem price_input_nonneg_integer_and_schema_min :
    (∀ s : String, 0 ≤ handlePriceChange s)
    ∧ handlePriceChange "12.50" = 1250
    ∧ handlePriceChange "" = 0
    ∧ ∀ v : AddProductFormValues, v.price < 1 →
        addProductSchemaAccepts v = false := by
  refine ⟨?_, by decide, by decide, ?_⟩
  · intro s
    dsimp only [handlePriceChange]
    split
    · exact le_refl 0
    · exact Int.natCast_nonneg _
  · intro v h
    have hlt : ¬ (1 ≤ v.price) := not_le.mpr h
    simp [addProductSchemaAccepts, hlt]

/-- C10 witness: the handler output is non-negative on a mixed input and the
schema rejects a form whose price is 0. -/
theorem price_input_nonneg_integer_and_schema_min_witness :
    0 ≤ handlePriceChange "abc12" ∧ (0 : Int) < 1
    ∧ addProductSchemaAccepts ⟨"Chair", 0, [⟨1, "Home"⟩]⟩ = false :=
  ⟨price_input_nonneg_integer_and_schema_min.1 "abc12", by decide,
   price_input_nonneg_integer_and_schema_min.2.2.2 ⟨"Chair", 0, [⟨1, "Home"⟩]⟩
     (by decide)⟩
